import Mathlib

/-! The user handlers of mongo-crud-go.

A shallow embedding of `controllers/user.go` (GetUser, CreateUser, DeleteUser,
validateUser).  The handlers are written against an arbitrary implementation of
the three collection operations they call, so that every statement about
rejections and store errors holds for every store; a second part instantiates
the collection with a failure-free map from identifiers to users.

Library code the handlers call is modelled as follows.
* `primitive.ObjectIDFromHex` and `ObjectID.Hex`: by `ObjectIDFromHex` and
  `ObjectID.Hex` below (twelve bytes, two hexadecimal digits each).
* `json.NewDecoder(r.Body).Decode(&user)`: a parameter `decode` of `CreateUser`,
  returning the decoded user or the text of the decoding error.
* `collection.FindOne(..).Decode(&user)`, `collection.InsertOne`,
  `collection.DeleteOne`: the fields of `Collection`.
* `http.Error` and `json.NewEncoder(w).Encode`: `httpError` and `writeJSON`.
-/

namespace MongoCrud

/-! ## Identifiers -/

/-- The type `primitive.ObjectID`, an array of twelve bytes. -/
abbrev ObjectID := { bs : List (Fin 256) // bs.length = 12 }

/-- The value of one hexadecimal digit, as in the decoding table of
`encoding/hex`: the digits, and the letters a to f in either case. -/
def fromHexChar (c : Char) : Option (Fin 16) :=
  if h : 48 ≤ c.toNat ∧ c.toNat ≤ 57 then some ⟨c.toNat - 48, by omega⟩
  else if h : 97 ≤ c.toNat ∧ c.toNat ≤ 102 then some ⟨c.toNat - 87, by omega⟩
  else if h : 65 ≤ c.toNat ∧ c.toNat ≤ 70 then some ⟨c.toNat - 55, by omega⟩
  else none

/-- The digit of `encoding/hex` for a value below sixteen, from the table
`0123456789abcdef`. -/
def toHexChar (n : Fin 16) : Char :=
  if n.val < 10 then Char.ofNat (48 + n.val) else Char.ofNat (87 + n.val)

/-- The function `hex.Decode`: every pair of digits gives one byte, the high
digit first; a character that is no digit, or a digit left alone at the end,
is an error. -/
def hexDecode : List Char → Option (List (Fin 256))
  | [] => some []
  | [_] => none
  | p :: q :: rest =>
    match fromHexChar p, fromHexChar q with
    | some a, some b =>
      match hexDecode rest with
      | some bs => some (⟨a.val * 16 + b.val, by omega⟩ :: bs)
      | none => none
    | _, _ => none

/-- The function `hex.EncodeToString`: two digits for every byte. -/
def hexEncode : List (Fin 256) → List Char
  | [] => []
  | b :: bs =>
    toHexChar ⟨b.val / 16, by omega⟩ :: toHexChar ⟨b.val % 16, by omega⟩ :: hexEncode bs

/-- The function `primitive.ObjectIDFromHex`: the string is decoded as
hexadecimal and must give exactly twelve bytes; `none` stands for a non-nil
error (the handlers only test the error against nil). -/
def ObjectIDFromHex (s : String) : Option ObjectID :=
  match hexDecode s.toList with
  | some bs => if h : bs.length = 12 then some ⟨bs, h⟩ else none
  | none => none

/-- The method `ObjectID.Hex`: the twenty-four digit form of an identifier. -/
def ObjectID.Hex (id : ObjectID) : String :=
  String.mk (hexEncode id.val)

/-! ## Data model -/

/-- Modelled from the spec: the record `models.User` (package `models` is not
among the sources).  Fields `id` (document identifier, generated by storage on
insert), `name` and `age`; the age is a Go `int`. -/
structure User where
  id : ObjectID
  name : String
  age : Int
deriving DecidableEq

/-- A Go `error` value as the handlers use it: `none` is nil, `some t` an error
whose `Error()` text is `t`. -/
abbrev GoError := Option String

/-- Helper function to validate user data (`validateUser`). -/
def validateUser (user : User) : GoError :=
  if user.name = "" then some "name is required"
  else if user.age ≤ 0 then some "age must be positive"
  else none

/-! ## Store interface -/

/-- An error returned by a collection operation.  `ErrNoDocuments` is the
sentinel `mongo.ErrNoDocuments`, which `GetUser` recognises by identity; every
other error is `other` with its text. -/
inductive StoreErr where
  | ErrNoDocuments
  | other (text : String)
deriving DecidableEq

/-- The method `Error()` of a store error. -/
def StoreErr.Error : StoreErr → String
  | .ErrNoDocuments => "mongo: no documents in result"
  | .other text => text

/-- The operations of `uc.client.Database(..).Collection("users")` the handlers
call, over a store state `σ`.  `FindOne` stands for `FindOne(ctx, _id).Decode`,
`DeleteOne` returns `result.DeletedCount`, `InsertOne` returns
`res.InsertedID`.  The five second deadline of the context shows only as one
more possible error. -/
structure Collection (σ : Type) where
  FindOne : σ → ObjectID → Except StoreErr User × σ
  InsertOne : σ → User → Except StoreErr ObjectID × σ
  DeleteOne : σ → ObjectID → Except StoreErr Int × σ

/-- One call made to the collection. -/
inductive StoreCall where
  | findOne (id : ObjectID)
  | insertOne (user : User)
  | deleteOne (id : ObjectID)
deriving DecidableEq

/-- Everything a handler can act on besides its response: the store, the calls
made to it so far, and the lines written with `log.Printf`. -/
structure World (σ : Type) where
  db : σ
  calls : List StoreCall
  log : List String

/-! ## Requests and responses -/

/-- A value placed in a response map. -/
inductive JVal where
  | bool (b : Bool)
  | str (s : String)
  | user (u : User)
  | oid (id : ObjectID)
deriving DecidableEq

/-- The body of a response: a JSON object written by `json.NewEncoder(w).Encode`
(its entries in the order of the map literal in the source), or the plain text
written by `http.Error`. -/
inductive Body where
  | json (fields : List (String × JVal))
  | text (s : String)
deriving DecidableEq

/-- Whether a body is the error envelope: a JSON object with exactly the two
entries `success` (false) and `message` (a string). -/
def Body.isErrorEnvelope : Body → Bool
  | .json m =>
    m.length == 2 && m.lookup "success" == some (.bool false) &&
      (match m.lookup "message" with
       | some (.str _) => true
       | _ => false)
  | .text _ => false

/-- What the client receives: status code, `Content-Type` header, body. -/
structure Response where
  status : Nat
  contentType : String
  body : Body
deriving DecidableEq

/-- What `CreateUser` reads of the request: `r.Header.Get("Content-Type")`
(empty when the header is absent) and the bytes of `r.Body`. -/
structure Request where
  contentType : String
  body : String

/-- The function `http.Error`: a plain-text response, the message followed by a
newline. -/
def httpError (msg : String) (code : Nat) : Response :=
  { status := code, contentType := "text/plain; charset=utf-8", body := .text (msg ++ "\n") }

/-- The sequence `w.Header().Set("Content-Type", "application/json")`,
`w.WriteHeader(code)`, `json.NewEncoder(w).Encode(m)`. -/
def writeJSON (code : Nat) (m : List (String × JVal)) : Response :=
  { status := code, contentType := "application/json", body := .json m }

/-! ## Handlers -/

/-- The handler `GetUser`; `id` is `p.ByName("id")`. -/
def GetUser {σ : Type} (uc : Collection σ) (w : World σ) (id : String) : Response × World σ :=
  match ObjectIDFromHex id with
  | none =>
    (writeJSON 400 [("success", .bool false), ("message", .str "Invalid ID format")], w)
  | some objID =>
    match uc.FindOne w.db objID with
    | (.error err, db) =>
      let w1 : World σ := { w with db := db, calls := w.calls ++ [.findOne objID] }
      if err = StoreErr.ErrNoDocuments then
        (writeJSON 404 [("success", .bool false), ("message", .str "User not found")], w1)
      else
        (writeJSON 500 [("success", .bool false), ("message", .str err.Error)], w1)
    | (.ok user, db) =>
      (writeJSON 200 [("success", .bool true), ("user", .user user)],
        { w with db := db, calls := w.calls ++ [.findOne objID] })

/-- The handler `CreateUser`; `decode` is `json.NewDecoder(r.Body).Decode`
into a fresh `models.User`.  The response map with a boolean and an identifier
always encodes, and after `WriteHeader(201)` a later `http.Error` could no
longer change the status, so the last branch of the source adds no response. -/
def CreateUser {σ : Type} (uc : Collection σ) (decode : String → Except String User)
    (w : World σ) (r : Request) : Response × World σ :=
  if r.contentType ≠ "application/json" then
    (httpError "Content-Type must be application/json" 415, w)
  else
    match decode r.body with
    | .error err => (httpError ("Invalid JSON input: " ++ err) 400, w)
    | .ok user =>
      match validateUser user with
      | some err => (httpError err 400, w)
      | none =>
        match uc.InsertOne w.db user with
        | (.error err, db) =>
          (httpError "Failed to create user" 500,
            { db := db, calls := w.calls ++ [.insertOne user],
              log := w.log ++ ["Failed to create user: " ++ err.Error] })
        | (.ok insertedID, db) =>
          (writeJSON 201 [("success", .bool true), ("data", .oid insertedID)],
            { w with db := db, calls := w.calls ++ [.insertOne user] })

/-- The handler `DeleteUser`; `id` is `p.ByName("id")`. -/
def DeleteUser {σ : Type} (uc : Collection σ) (w : World σ) (id : String) : Response × World σ :=
  match ObjectIDFromHex id with
  | none =>
    (writeJSON 500 [("success", .bool false), ("message", .str "Invalid Object Id Provided")], w)
  | some objID =>
    match uc.DeleteOne w.db objID with
    | (.error err, db) =>
      (writeJSON 500 [("success", .bool false), ("message", .str err.Error)],
        { w with db := db, calls := w.calls ++ [.deleteOne objID] })
    | (.ok deletedCount, db) =>
      let w1 : World σ := { w with db := db, calls := w.calls ++ [.deleteOne objID] }
      if deletedCount = 0 then
        (writeJSON 404 [("success", .bool false), ("message", .str "User not found")], w1)
      else
        (writeJSON 200 [("success", .bool true), ("message", .str "User deleted successfully")], w1)

/-! ## A store without failures -/

/-- A document store that never fails: a map from identifiers to users,
together with the identifiers the driver will hand out (`idSource`, generated
from clock, process and counter, here an arbitrary sequence) and the number of
inserts made so far. -/
structure MapStore where
  docs : ObjectID → Option User
  idSource : Nat → ObjectID
  inserted : Nat

/-- The collection operations over `MapStore`.  `FindOne` reports
`ErrNoDocuments` when the identifier maps to nothing; `InsertOne` stores the
user under the next generated identifier, which becomes the identifier of the
record; `DeleteOne` removes the entry and reports how many it removed. -/
def mapCollection : Collection MapStore where
  FindOne s id :=
    match s.docs id with
    | some u => (.ok u, s)
    | none => (.error .ErrNoDocuments, s)
  InsertOne s u :=
    let id := s.idSource s.inserted
    (.ok id,
      { s with docs := fun k => if k = id then some { u with id := id } else s.docs k,
               inserted := s.inserted + 1 })
  DeleteOne s id :=
    match s.docs id with
    | some _ => (.ok 1, { s with docs := fun k => if k = id then none else s.docs k })
    | none => (.ok 0, s)

/-! ## Concrete values for the instances -/

/-- The identifier whose twelve bytes all equal `b`. -/
def constID (b : Fin 256) : ObjectID := ⟨List.replicate 12 b, by simp⟩

/-- An empty map store whose generated identifiers repeat the insert number in
every byte. -/
def emptyStore : MapStore where
  docs := fun _ => none
  idSource := fun n => constID ⟨n % 256, by omega⟩
  inserted := 0

/-- A world over the empty map store, with no call made and nothing logged. -/
def emptyWorld : World MapStore := { db := emptyStore, calls := [], log := [] }

/-- The user Alice, aged thirty, before the store has given her an identifier. -/
def alice : User := { id := constID 0, name := "Alice", age := 30 }

/-- A map store holding Alice under the identifier of bytes 7. -/
def aliceStore : MapStore :=
  { emptyStore with docs := fun k => if k = constID 7 then some { alice with id := constID 7 } else none }

/-- A world over `aliceStore`. -/
def aliceWorld : World MapStore := { db := aliceStore, calls := [], log := [] }

/-- A decoder for the instances: it knows three request bodies, and reports any
other body as malformed. -/
def sampleDecode (body : String) : Except String User :=
  if body = "alice" then .ok alice
  else if body = "noname" then .ok { alice with name := "" }
  else if body = "newborn" then .ok { alice with age := 0 }
  else .error "invalid character"

/-- A collection over a one-point store in which every operation fails with
the given error. -/
def failingCollection (e : StoreErr) : Collection Unit where
  FindOne _ _ := (.error e, ())
  InsertOne _ _ := (.error e, ())
  DeleteOne _ _ := (.error e, ())

/-- The world over the one-point store. -/
def unitWorld : World Unit := { db := (), calls := [], log := [] }

/-! ## Identifiers: decoding inverts encoding -/

theorem fromHexChar_toHexChar : ∀ n : Fin 16, fromHexChar (toHexChar n) = some n := by
  decide

theorem hexDecode_hexEncode (bs : List (Fin 256)) : hexDecode (hexEncode bs) = some bs := by
  induction bs with
  | nil => rfl
  | cons b bs ih =>
    have hb : (⟨b.val / 16 * 16 + b.val % 16, by omega⟩ : Fin 256) = b := by
      apply Fin.ext
      show b.val / 16 * 16 + b.val % 16 = b.val
      omega
    simp only [hexEncode, hexDecode, fromHexChar_toHexChar, ih, hb]

theorem ObjectIDFromHex_Hex (id : ObjectID) : ObjectIDFromHex id.Hex = some id := by
  obtain ⟨bs, hlen⟩ := id
  have h : hexDecode (String.mk (hexEncode bs)).toList = some bs := hexDecode_hexEncode bs
  simp only [ObjectIDFromHex, ObjectID.Hex, h, hlen, dite_true]

/-! ## Validation -/

/-- C1: validateUser is total; it returns no error exactly when the name is
non-empty and the age is greater than 0, the error "name is required" when the
name is empty (whatever the age), and the error "age must be positive" when the
name is non-empty and the age is at most 0. -/
theorem validateUser_spec (user : User) :
    (validateUser user = none ↔ user.name ≠ "" ∧ 0 < user.age) ∧
    (user.name = "" → validateUser user = some "name is required") ∧
    (user.name ≠ "" → user.age ≤ 0 → validateUser user = some "age must be positive") := by
  unfold validateUser
  by_cases hn : user.name = ""
  · simp [hn]
  · by_cases ha : user.age ≤ 0
    · simp [hn, ha]
    · simp [hn, ha]
      omega

theorem validateUser_spec_witness :
    validateUser alice = none ∧
    validateUser { alice with name := "" } = some "name is required" ∧
    validateUser { alice with age := -3 } = some "age must be positive" :=
  ⟨(validateUser_spec alice).1.mpr ⟨by decide, by decide⟩,
   (validateUser_spec { alice with name := "" }).2.1 rfl,
   (validateUser_spec { alice with age := -3 }).2.2 (by decide) (by decide)⟩

/-! ## Rejections before any store call -/

/-- C2: a create request with content type application/json whose body decodes
to a user with an empty name or an age of at most 0 is answered with status
400, and the world (store state, calls made to the store, log) is unchanged. -/
theorem CreateUser_invalid_user_400 {σ : Type} (uc : Collection σ)
    (decode : String → Except String User) (w : World σ) (r : Request) (user : User)
    (hct : r.contentType = "application/json") (hdec : decode r.body = .ok user)
    (hbad : user.name = "" ∨ user.age ≤ 0) :
    (CreateUser uc decode w r).1.status = 400 ∧
    (CreateUser uc decode w r).2 = w ∧
    (CreateUser uc decode w r).2.db = w.db ∧
    (CreateUser uc decode w r).2.calls = w.calls := by
  have hv : ∃ err, validateUser user = some err := by
    unfold validateUser
    rcases hbad with h | h
    · exact ⟨"name is required", by simp [h]⟩
    · by_cases hn : user.name = ""
      · exact ⟨"name is required", by simp [hn]⟩
      · exact ⟨"age must be positive", by simp [hn, h]⟩
  obtain ⟨err, herr⟩ := hv
  simp [CreateUser, hct, hdec, herr, httpError]

theorem CreateUser_invalid_user_400_witness :
    (CreateUser mapCollection sampleDecode emptyWorld ⟨"application/json", "newborn"⟩).1.status = 400 ∧
    (CreateUser mapCollection sampleDecode emptyWorld ⟨"application/json", "newborn"⟩).2 = emptyWorld ∧
    (CreateUser mapCollection sampleDecode emptyWorld ⟨"application/json", "newborn"⟩).2.db = emptyWorld.db ∧
    (CreateUser mapCollection sampleDecode emptyWorld ⟨"application/json", "newborn"⟩).2.calls = emptyWorld.calls :=
  CreateUser_invalid_user_400 mapCollection sampleDecode emptyWorld ⟨"application/json", "newborn"⟩
    { alice with age := 0 } rfl rfl (Or.inr (by decide))

/-- C3: for an identifier string on which ObjectIDFromHex fails, GetUser answers
400 with success=false and message "Invalid ID format", DeleteUser answers 500
with success=false and message "Invalid Object Id Provided", and both leave the
world unchanged: no store call is made. -/
theorem malformed_id_rejected {σ : Type} (uc : Collection σ) (w : World σ) (id : String)
    (hid : ObjectIDFromHex id = none) :
    GetUser uc w id =
      ({ status := 400, contentType := "application/json",
         body := .json [("success", .bool false), ("message", .str "Invalid ID format")] }, w) ∧
    DeleteUser uc w id =
      ({ status := 500, contentType := "application/json",
         body := .json [("success", .bool false), ("message", .str "Invalid Object Id Provided")] }, w) := by
  simp [GetUser, DeleteUser, hid, writeJSON]

theorem malformed_id_rejected_witness :
    ObjectIDFromHex "not-an-id" = none ∧
    GetUser mapCollection aliceWorld "not-an-id" =
      ({ status := 400, contentType := "application/json",
         body := .json [("success", .bool false), ("message", .str "Invalid ID format")] }, aliceWorld) ∧
    DeleteUser mapCollection aliceWorld "not-an-id" =
      ({ status := 500, contentType := "application/json",
         body := .json [("success", .bool false), ("message", .str "Invalid Object Id Provided")] },
        aliceWorld) :=
  ⟨by decide, malformed_id_rejected mapCollection aliceWorld "not-an-id" (by decide)⟩

/-- C4: a create request whose content type is not application/json, text/plain
in particular, is answered with status 415 and the fixed plain-text body,
whatever the body, the decoder and the store are, and the world is unchanged. -/
theorem CreateUser_wrong_content_type_415 {σ : Type} (uc : Collection σ)
    (decode : String → Except String User) (w : World σ) :
    (∀ r : Request, r.contentType ≠ "application/json" →
      CreateUser uc decode w r =
        ({ status := 415, contentType := "text/plain; charset=utf-8",
           body := .text "Content-Type must be application/json\n" }, w)) ∧
    (∀ body : String, (CreateUser uc decode w ⟨"text/plain", body⟩).1.status = 415 ∧
      (CreateUser uc decode w ⟨"text/plain", body⟩).2 = w) := by
  have key : ∀ r : Request, r.contentType ≠ "application/json" →
      CreateUser uc decode w r =
        ({ status := 415, contentType := "text/plain; charset=utf-8",
           body := .text "Content-Type must be application/json\n" }, w) := by
    intro r hr
    simp only [CreateUser, hr, ne_eq, not_false_eq_true, if_true, httpError]
    rfl
  refine ⟨key, fun body => ?_⟩
  have hne : (⟨"text/plain", body⟩ : Request).contentType ≠ "application/json" := by
    show "text/plain" ≠ "application/json"
    decide
  rw [key ⟨"text/plain", body⟩ hne]
  exact ⟨rfl, rfl⟩

theorem CreateUser_wrong_content_type_415_witness :
    (CreateUser mapCollection sampleDecode emptyWorld ⟨"text/plain", "alice"⟩).1.status = 415 ∧
    (CreateUser mapCollection sampleDecode emptyWorld ⟨"text/plain", "alice"⟩).2 = emptyWorld :=
  (CreateUser_wrong_content_type_415 mapCollection sampleDecode emptyWorld).2 "alice"

/-! ## Not found -/

/-- C5: for a valid identifier, when FindOne reports no documents GetUser
answers 404, and when DeleteOne reports a deleted count of 0 DeleteUser answers
404, each with success=false and the message "User not found". -/
theorem not_found_404 {σ : Type} (uc : Collection σ) (w : World σ) (id : String)
    (objID : ObjectID) (hid : ObjectIDFromHex id = some objID) :
    (∀ db : σ, uc.FindOne w.db objID = (.error .ErrNoDocuments, db) →
      (GetUser uc w id).1 =
        { status := 404, contentType := "application/json",
          body := .json [("success", .bool false), ("message", .str "User not found")] }) ∧
    (∀ db : σ, uc.DeleteOne w.db objID = (.ok 0, db) →
      (DeleteUser uc w id).1 =
        { status := 404, contentType := "application/json",
          body := .json [("success", .bool false), ("message", .str "User not found")] }) := by
  constructor
  · intro db h
    simp [GetUser, hid, h, writeJSON]
  · intro db h
    simp [DeleteUser, hid, h, writeJSON]

theorem not_found_404_witness :
    ObjectIDFromHex "090909090909090909090909" = some (constID 9) ∧
    (GetUser mapCollection aliceWorld "090909090909090909090909").1 =
      { status := 404, contentType := "application/json",
        body := .json [("success", .bool false), ("message", .str "User not found")] } ∧
    (DeleteUser mapCollection aliceWorld "090909090909090909090909").1 =
      { status := 404, contentType := "application/json",
        body := .json [("success", .bool false), ("message", .str "User not found")] } :=
  ⟨by decide,
   (not_found_404 mapCollection aliceWorld "090909090909090909090909" (constID 9) (by decide)).1
     aliceStore rfl,
   (not_found_404 mapCollection aliceWorld "090909090909090909090909" (constID 9) (by decide)).2
     aliceStore rfl⟩

/-! ## The handlers over the map store -/

theorem DeleteUser_map_present (w : World MapStore) (X : ObjectID) (u : User)
    (h : w.db.docs X = some u) :
    DeleteUser mapCollection w X.Hex =
      (writeJSON 200 [("success", .bool true), ("message", .str "User deleted successfully")],
        { w with db := { w.db with docs := fun k => if k = X then none else w.db.docs k },
                 calls := w.calls ++ [.deleteOne X] }) := by
  simp [DeleteUser, ObjectIDFromHex_Hex, mapCollection, h]

theorem DeleteUser_map_absent (w : World MapStore) (X : ObjectID) (h : w.db.docs X = none) :
    DeleteUser mapCollection w X.Hex =
      (writeJSON 404 [("success", .bool false), ("message", .str "User not found")],
        { w with calls := w.calls ++ [.deleteOne X] }) := by
  simp [DeleteUser, ObjectIDFromHex_Hex, mapCollection, h]

theorem GetUser_map_present (w : World MapStore) (X : ObjectID) (u : User)
    (h : w.db.docs X = some u) :
    GetUser mapCollection w X.Hex =
      (writeJSON 200 [("success", .bool true), ("user", .user u)],
        { w with calls := w.calls ++ [.findOne X] }) := by
  simp [GetUser, ObjectIDFromHex_Hex, mapCollection, h]

theorem CreateUser_map_valid (decode : String → Except String User) (w : World MapStore)
    (r : Request) (user : User) (hct : r.contentType = "application/json")
    (hdec : decode r.body = .ok user) (hv : validateUser user = none) :
    CreateUser mapCollection decode w r =
      (writeJSON 201 [("success", .bool true), ("data", .oid (w.db.idSource w.db.inserted))],
        { w with
          db := { w.db with
                  docs := fun k =>
                    if k = w.db.idSource w.db.inserted then
                      some { user with id := w.db.idSource w.db.inserted }
                    else w.db.docs k,
                  inserted := w.db.inserted + 1 },
          calls := w.calls ++ [.insertOne user] }) := by
  simp [CreateUser, hct, hdec, hv, mapCollection]

theorem validateUser_of_valid (user : User) (hname : user.name ≠ "") (hage : 0 < user.age) :
    validateUser user = none := by
  have hage2 : ¬ user.age ≤ 0 := by omega
  simp [validateUser, hname, hage2]

/-- C6: over the map store, DeleteUser on an identifier X present in the store
answers 200 with the message "User deleted successfully" and removes X (and
nothing else), and a second DeleteUser on X from the resulting state answers
404; this holds in particular for the identifier a successful create returns. -/
theorem delete_once_then_again (w : World MapStore) :
    (∀ (X : ObjectID) (u : User), w.db.docs X = some u →
      (DeleteUser mapCollection w X.Hex).1 =
        { status := 200, contentType := "application/json",
          body := .json [("success", .bool true),
                         ("message", .str "User deleted successfully")] } ∧
      (DeleteUser mapCollection w X.Hex).2.db.docs X = none ∧
      (∀ k : ObjectID, k ≠ X → (DeleteUser mapCollection w X.Hex).2.db.docs k = w.db.docs k) ∧
      (DeleteUser mapCollection (DeleteUser mapCollection w X.Hex).2 X.Hex).1 =
        { status := 404, contentType := "application/json",
          body := .json [("success", .bool false), ("message", .str "User not found")] }) ∧
    (∀ (decode : String → Except String User) (r : Request) (user : User),
      r.contentType = "application/json" → decode r.body = .ok user →
      user.name ≠ "" → 0 < user.age →
      ∃ X : ObjectID,
        (CreateUser mapCollection decode w r).1 =
          { status := 201, contentType := "application/json",
            body := .json [("success", .bool true), ("data", .oid X)] } ∧
        (DeleteUser mapCollection (CreateUser mapCollection decode w r).2 X.Hex).1.status = 200 ∧
        (DeleteUser mapCollection
          (DeleteUser mapCollection (CreateUser mapCollection decode w r).2 X.Hex).2
          X.Hex).1.status = 404) := by
  have present : ∀ (v : World MapStore) (X : ObjectID) (u : User), v.db.docs X = some u →
      (DeleteUser mapCollection v X.Hex).1 =
        { status := 200, contentType := "application/json",
          body := .json [("success", .bool true),
                         ("message", .str "User deleted successfully")] } ∧
      (DeleteUser mapCollection v X.Hex).2.db.docs X = none ∧
      (∀ k : ObjectID, k ≠ X → (DeleteUser mapCollection v X.Hex).2.db.docs k = v.db.docs k) ∧
      (DeleteUser mapCollection (DeleteUser mapCollection v X.Hex).2 X.Hex).1 =
        { status := 404, contentType := "application/json",
          body := .json [("success", .bool false), ("message", .str "User not found")] } := by
    intro v X u h
    rw [DeleteUser_map_present v X u h]
    refine ⟨rfl, by simp, ?_, ?_⟩
    · intro k hk
      simp [hk]
    · rw [DeleteUser_map_absent _ X (by simp)]
      rfl
  refine ⟨present w, ?_⟩
  intro decode r user hct hdec hname hage
  have hv := validateUser_of_valid user hname hage
  have hstored : (CreateUser mapCollection decode w r).2.db.docs (w.db.idSource w.db.inserted) =
      some { user with id := w.db.idSource w.db.inserted } := by
    rw [CreateUser_map_valid decode w r user hct hdec hv]
    simp
  obtain ⟨h1, -, -, h2⟩ := present (CreateUser mapCollection decode w r).2
    (w.db.idSource w.db.inserted) _ hstored
  refine ⟨w.db.idSource w.db.inserted, ?_, ?_, ?_⟩
  · rw [CreateUser_map_valid decode w r user hct hdec hv]
    rfl
  · rw [h1]
  · rw [h2]

theorem delete_once_then_again_witness :
    aliceWorld.db.docs (constID 7) = some { alice with id := constID 7 } ∧
    (DeleteUser mapCollection aliceWorld (constID 7).Hex).1 =
      { status := 200, contentType := "application/json",
        body := .json [("success", .bool true),
                       ("message", .str "User deleted successfully")] } ∧
    (DeleteUser mapCollection (DeleteUser mapCollection aliceWorld (constID 7).Hex).2
      (constID 7).Hex).1 =
      { status := 404, contentType := "application/json",
        body := .json [("success", .bool false), ("message", .str "User not found")] } :=
  ⟨by decide,
   ((delete_once_then_again aliceWorld).1 (constID 7) { alice with id := constID 7 }
      (by decide)).1,
   ((delete_once_then_again aliceWorld).1 (constID 7) { alice with id := constID 7 }
      (by decide)).2.2.2⟩

/-- C7: over the map store, a create request with content type application/json
whose body decodes to a valid user (non-empty name, age greater than 0) is
answered 201 with an identifier X, and GetUser on X in the resulting state
answers 200 with success=true and a user whose name and age are those
submitted; X is the only identifier the 201 response can carry. -/
theorem create_then_get (decode : String → Except String User) (w : World MapStore)
    (r : Request) (user : User) (hct : r.contentType = "application/json")
    (hdec : decode r.body = .ok user) (hname : user.name ≠ "") (hage : 0 < user.age) :
    (∃ (X : ObjectID) (stored : User),
      (CreateUser mapCollection decode w r).1 =
        { status := 201, contentType := "application/json",
          body := .json [("success", .bool true), ("data", .oid X)] } ∧
      (GetUser mapCollection (CreateUser mapCollection decode w r).2 X.Hex).1 =
        { status := 200, contentType := "application/json",
          body := .json [("success", .bool true), ("user", .user stored)] } ∧
      stored.name = user.name ∧ stored.age = user.age) ∧
    (∀ X : ObjectID,
      (CreateUser mapCollection decode w r).1 =
        { status := 201, contentType := "application/json",
          body := .json [("success", .bool true), ("data", .oid X)] } →
      ∃ stored : User,
        (GetUser mapCollection (CreateUser mapCollection decode w r).2 X.Hex).1 =
          { status := 200, contentType := "application/json",
            body := .json [("success", .bool true), ("user", .user stored)] } ∧
        stored.name = user.name ∧ stored.age = user.age) := by
  have hv := validateUser_of_valid user hname hage
  have hget : (GetUser mapCollection (CreateUser mapCollection decode w r).2
      (w.db.idSource w.db.inserted).Hex).1 =
        { status := 200, contentType := "application/json",
          body := .json [("success", .bool true),
                         ("user", .user { user with id := w.db.idSource w.db.inserted })] } := by
    rw [CreateUser_map_valid decode w r user hct hdec hv]
    rw [GetUser_map_present _ (w.db.idSource w.db.inserted)
      { user with id := w.db.idSource w.db.inserted } (by simp)]
    rfl
  constructor
  · refine ⟨w.db.idSource w.db.inserted, { user with id := w.db.idSource w.db.inserted },
      ?_, hget, rfl, rfl⟩
    rw [CreateUser_map_valid decode w r user hct hdec hv]
    rfl
  · intro X hX
    rw [CreateUser_map_valid decode w r user hct hdec hv] at hX
    have hXeq : w.db.idSource w.db.inserted = X := by
      simpa [writeJSON] using hX
    subst hXeq
    exact ⟨{ user with id := w.db.idSource w.db.inserted }, hget, rfl, rfl⟩

theorem create_then_get_witness :
    sampleDecode "alice" = .ok alice ∧ alice.name ≠ "" ∧ 0 < alice.age ∧
    ∃ (X : ObjectID) (stored : User),
      (CreateUser mapCollection sampleDecode emptyWorld ⟨"application/json", "alice"⟩).1 =
        { status := 201, contentType := "application/json",
          body := .json [("success", .bool true), ("data", .oid X)] } ∧
      (GetUser mapCollection
        (CreateUser mapCollection sampleDecode emptyWorld ⟨"application/json", "alice"⟩).2
        X.Hex).1 =
        { status := 200, contentType := "application/json",
          body := .json [("success", .bool true), ("user", .user stored)] } ∧
      stored.name = alice.name ∧ stored.age = alice.age :=
  ⟨rfl, by decide, by decide,
   (create_then_get sampleDecode emptyWorld ⟨"application/json", "alice"⟩ alice rfl rfl
      (by decide) (by decide)).1⟩

/-! ## Status classes of client errors -/

/-- The client input errors other than a malformed identifier on delete are
answered in the range 400 to 499: a malformed identifier on fetch (400), a
wrong content type (415), malformed JSON (400) and an invalid user (400). -/
theorem client_errors_4xx_elsewhere {σ : Type} (uc : Collection σ)
    (decode : String → Except String User) (w : World σ) :
    (∀ id : String, ObjectIDFromHex id = none → (GetUser uc w id).1.status = 400) ∧
    (∀ r : Request, r.contentType ≠ "application/json" →
      (CreateUser uc decode w r).1.status = 415) ∧
    (∀ (r : Request) (err : String), r.contentType = "application/json" →
      decode r.body = .error err → (CreateUser uc decode w r).1.status = 400) ∧
    (∀ (r : Request) (user : User) (err : String), r.contentType = "application/json" →
      decode r.body = .ok user → validateUser user = some err →
      (CreateUser uc decode w r).1.status = 400) := by
  refine ⟨?_, ?_, ?_, ?_⟩
  · intro id h
    simp [GetUser, h, writeJSON]
  · intro r h
    simp [CreateUser, h, httpError]
  · intro r err hct h
    simp [CreateUser, hct, h, httpError]
  · intro r user err hct h hv
    simp [CreateUser, hct, h, hv, httpError]

/-- C8: on the malformed identifier "not-an-id" DeleteUser answers with status
500, which is outside the range 400 to 499, while GetUser answers the same
identifier with 400. -/
theorem DeleteUser_malformed_id_is_500 :
    ObjectIDFromHex "not-an-id" = none ∧
    (DeleteUser mapCollection aliceWorld "not-an-id").1.status = 500 ∧
    ¬ (400 ≤ (DeleteUser mapCollection aliceWorld "not-an-id").1.status ∧
       (DeleteUser mapCollection aliceWorld "not-an-id").1.status ≤ 499) ∧
    (GetUser mapCollection aliceWorld "not-an-id").1.status = 400 := by
  decide

/-! ## Shape of error responses -/

/-- C9, as stated, fails: the validation failure (400) and the store failure
(500) of CreateUser are plain-text responses, not JSON envelopes. -/
theorem CreateUser_error_bodies_are_text :
    (CreateUser mapCollection sampleDecode emptyWorld ⟨"application/json", "noname"⟩).1 =
      { status := 400, contentType := "text/plain; charset=utf-8",
        body := .text "name is required\n" } ∧
    (CreateUser mapCollection sampleDecode emptyWorld
      ⟨"application/json", "noname"⟩).1.body.isErrorEnvelope = false ∧
    (CreateUser (failingCollection (.other "connection refused")) sampleDecode unitWorld
      ⟨"application/json", "alice"⟩).1 =
      { status := 500, contentType := "text/plain; charset=utf-8",
        body := .text "Failed to create user\n" } ∧
    (CreateUser (failingCollection (.other "connection refused")) sampleDecode unitWorld
      ⟨"application/json", "alice"⟩).1.body.isErrorEnvelope = false := by
  decide

/-- C9, amended: every response of GetUser and of DeleteUser with a status other
than 200 is a JSON envelope with success=false and a message (and a 200
response is not); every response of CreateUser with a status other than 201,
which is one of 415, 400 and 500, has a plain-text body. -/
theorem error_response_bodies {σ : Type} (uc : Collection σ)
    (decode : String → Except String User) (w : World σ) (id : String) (r : Request) :
    ((GetUser uc w id).1.status ≠ 200 →
      (GetUser uc w id).1.body.isErrorEnvelope = true ∧
      (GetUser uc w id).1.contentType = "application/json") ∧
    ((GetUser uc w id).1.status = 200 → (GetUser uc w id).1.body.isErrorEnvelope = false) ∧
    ((DeleteUser uc w id).1.status ≠ 200 →
      (DeleteUser uc w id).1.body.isErrorEnvelope = true ∧
      (DeleteUser uc w id).1.contentType = "application/json") ∧
    ((DeleteUser uc w id).1.status = 200 → (DeleteUser uc w id).1.body.isErrorEnvelope = false) ∧
    ((CreateUser uc decode w r).1.status ≠ 201 →
      ((CreateUser uc decode w r).1.status = 415 ∨ (CreateUser uc decode w r).1.status = 400 ∨
        (CreateUser uc decode w r).1.status = 500) ∧
      (∃ t : String, (CreateUser uc decode w r).1.body = .text t) ∧
      (CreateUser uc decode w r).1.contentType = "text/plain; charset=utf-8") := by
  refine ⟨?_, ?_, ?_, ?_, ?_⟩
  · unfold GetUser
    split
    · simp [writeJSON, Body.isErrorEnvelope, List.lookup]
    · split
      · split <;> simp [writeJSON, Body.isErrorEnvelope, List.lookup]
      · simp [writeJSON]
  · unfold GetUser
    split
    · simp [writeJSON]
    · split
      · split <;> simp [writeJSON]
      · simp [writeJSON, Body.isErrorEnvelope, List.lookup]
  · unfold DeleteUser
    split
    · simp [writeJSON, Body.isErrorEnvelope, List.lookup]
    · split
      · simp [writeJSON, Body.isErrorEnvelope, List.lookup]
      · split <;> simp [writeJSON, Body.isErrorEnvelope, List.lookup]
  · unfold DeleteUser
    split
    · simp [writeJSON]
    · split
      · simp [writeJSON]
      · split <;> simp [writeJSON, Body.isErrorEnvelope, List.lookup]
  · unfold CreateUser
    split
    · simp [httpError]
    · split
      · simp [httpError]
      · split
        · simp [httpError]
        · split
          · simp [httpError]
          · simp [writeJSON]

theorem error_response_bodies_witness :
    (GetUser mapCollection aliceWorld "not-an-id").1.status ≠ 200 ∧
    (GetUser mapCollection aliceWorld "not-an-id").1.body.isErrorEnvelope = true ∧
    (CreateUser mapCollection sampleDecode aliceWorld ⟨"application/json", "noname"⟩).1.status ≠ 201 ∧
    (∃ t : String,
      (CreateUser mapCollection sampleDecode aliceWorld ⟨"application/json", "noname"⟩).1.body =
        .text t) :=
  ⟨by decide,
   ((error_response_bodies mapCollection sampleDecode aliceWorld "not-an-id"
      ⟨"application/json", "noname"⟩).1 (by decide)).1,
   by decide,
   ((error_response_bodies mapCollection sampleDecode aliceWorld "not-an-id"
      ⟨"application/json", "noname"⟩).2.2.2.2 (by decide)).2.1⟩

/-! ## Store errors -/

/-- C10: a store error is answered with 500 on every path.  GetUser (for an
error other than no-documents) and DeleteUser (for any error) put the text of
the error in the message; CreateUser answers with the fixed plain-text body
"Failed to create user", the same for any two store errors, stores and
requests, and the text of the error goes to the log only. -/
theorem store_errors_500 :
    (∀ (σ : Type) (uc : Collection σ) (w : World σ) (id : String) (objID : ObjectID)
        (e : StoreErr) (db : σ),
      ObjectIDFromHex id = some objID → uc.FindOne w.db objID = (.error e, db) →
      e ≠ StoreErr.ErrNoDocuments →
      (GetUser uc w id).1 =
        { status := 500, contentType := "application/json",
          body := .json [("success", .bool false), ("message", .str e.Error)] }) ∧
    (∀ (σ : Type) (uc : Collection σ) (w : World σ) (id : String) (objID : ObjectID)
        (e : StoreErr) (db : σ),
      ObjectIDFromHex id = some objID → uc.DeleteOne w.db objID = (.error e, db) →
      (DeleteUser uc w id).1 =
        { status := 500, contentType := "application/json",
          body := .json [("success", .bool false), ("message", .str e.Error)] }) ∧
    (∀ (σ : Type) (uc : Collection σ) (decode : String → Except String User) (w : World σ)
        (r : Request) (user : User) (e : StoreErr) (db : σ),
      r.contentType = "application/json" → decode r.body = .ok user →
      validateUser user = none → uc.InsertOne w.db user = (.error e, db) →
      (CreateUser uc decode w r).1 =
        { status := 500, contentType := "text/plain; charset=utf-8",
          body := .text "Failed to create user\n" } ∧
      (CreateUser uc decode w r).2.log = w.log ++ ["Failed to create user: " ++ e.Error]) ∧
    (∀ (σ τ : Type) (uc1 : Collection σ) (uc2 : Collection τ)
        (decode1 decode2 : String → Except String User) (w1 : World σ) (w2 : World τ)
        (r1 r2 : Request) (user1 user2 : User) (e1 e2 : StoreErr) (db1 : σ) (db2 : τ),
      r1.contentType = "application/json" → decode1 r1.body = .ok user1 →
      validateUser user1 = none → uc1.InsertOne w1.db user1 = (.error e1, db1) →
      r2.contentType = "application/json" → decode2 r2.body = .ok user2 →
      validateUser user2 = none → uc2.InsertOne w2.db user2 = (.error e2, db2) →
      (CreateUser uc1 decode1 w1 r1).1 = (CreateUser uc2 decode2 w2 r2).1) := by
  have create : ∀ (σ : Type) (uc : Collection σ) (decode : String → Except String User)
      (w : World σ) (r : Request) (user : User) (e : StoreErr) (db : σ),
      r.contentType = "application/json" → decode r.body = .ok user →
      validateUser user = none → uc.InsertOne w.db user = (.error e, db) →
      (CreateUser uc decode w r).1 =
        { status := 500, contentType := "text/plain; charset=utf-8",
          body := .text "Failed to create user\n" } ∧
      (CreateUser uc decode w r).2.log = w.log ++ ["Failed to create user: " ++ e.Error] := by
    intro σ uc decode w r user e db hct hdec hv hins
    simp [CreateUser, hct, hdec, hv, hins, httpError]
  refine ⟨?_, ?_, create, ?_⟩
  · intro σ uc w id objID e db hid hfind hne
    simp [GetUser, hid, hfind, hne, writeJSON]
  · intro σ uc w id objID e db hid hdel
    simp [DeleteUser, hid, hdel, writeJSON]
  · intro σ τ uc1 uc2 decode1 decode2 w1 w2 r1 r2 user1 user2 e1 e2 db1 db2
      hct1 hdec1 hv1 hins1 hct2 hdec2 hv2 hins2
    rw [(create σ uc1 decode1 w1 r1 user1 e1 db1 hct1 hdec1 hv1 hins1).1,
      (create τ uc2 decode2 w2 r2 user2 e2 db2 hct2 hdec2 hv2 hins2).1]

theorem store_errors_500_witness :
    ObjectIDFromHex "070707070707070707070707" = some (constID 7) ∧
    (GetUser (failingCollection (.other "connection refused")) unitWorld
      "070707070707070707070707").1 =
      { status := 500, contentType := "application/json",
        body := .json [("success", .bool false),
                       ("message", .str (StoreErr.other "connection refused").Error)] } ∧
    (DeleteUser (failingCollection (.other "connection refused")) unitWorld
      "070707070707070707070707").1 =
      { status := 500, contentType := "application/json",
        body := .json [("success", .bool false),
                       ("message", .str (StoreErr.other "connection refused").Error)] } ∧
    (CreateUser (failingCollection (.other "connection refused")) sampleDecode unitWorld
      ⟨"application/json", "alice"⟩).1 =
    (CreateUser (failingCollection (.other "duplicate key")) sampleDecode unitWorld
      ⟨"application/json", "alice"⟩).1 :=
  ⟨by decide,
   store_errors_500.1 Unit (failingCollection (.other "connection refused")) unitWorld
     "070707070707070707070707" (constID 7) (.other "connection refused") () (by decide) rfl
     (by decide),
   store_errors_500.2.1 Unit (failingCollection (.other "connection refused")) unitWorld
     "070707070707070707070707" (constID 7) (.other "connection refused") () (by decide) rfl,
   store_errors_500.2.2.2 Unit Unit (failingCollection (.other "connection refused"))
     (failingCollection (.other "duplicate key")) sampleDecode sampleDecode unitWorld unitWorld
     ⟨"application/json", "alice"⟩ ⟨"application/json", "alice"⟩ alice alice
     (.other "connection refused") (.other "duplicate key") () ()
     rfl rfl (by decide) rfl rfl rfl (by decide) rfl⟩

end MongoCrud
